import Mathlib

/-!
Verification development for the session-serialized dispatch and coalescing
engine of `channel/chat_channel.py`.

Each definition is a shallow embedding of a function or code fragment of the
source file; machine details that are external collaborators in the spec
(LLM reply generation, the KGAPI image client, message decoration, the
error-notification webhook) are passed in as parameters.  Wall-clock times
are natural numbers (seconds); Python dicts keyed by message/session ids are
association lists or `Nat → Option _` maps.
-/

set_option maxRecDepth 4000

namespace CC

/-- Context types of `bridge.context.ContextType` used by `chat_channel.py`. -/
inductive ContextType
  | TEXT
  | IMAGE
  | VOICE
  | VIDEO
  | IMAGE_CREATE
  | GACHA_CREATE
  | SHARING
  | FUNCTION
  deriving DecidableEq, Repr

/-- A `Reply` as used by the channel: an optional type tag plus string content.
`Reply()` (the empty reply) has empty content; Python truthiness of
`reply and reply.content` is modelled by `content ≠ ""`. -/
structure Reply where
  content : String := ""
  deriving DecidableEq, Repr

/-- Python `str.isspace`-style whitespace for ASCII, as stripped by `str.strip()`
and matched by the regex class `\s` on the inputs the channel sees. -/
def pyIsSpace (c : Char) : Bool :=
  c = ' ' || c = '\t' || c = '\n' || c = '\r' || c = '\x0b' || c = '\x0c'

/-- Drop leading whitespace characters. -/
def dropLeadingSpaces : List Char → List Char
  | [] => []
  | c :: cs => if pyIsSpace c then dropLeadingSpaces cs else c :: cs

/-- Python `str.strip()` on a character list: drop leading and trailing
whitespace. -/
def stripChars (cs : List Char) : List Char :=
  ((dropLeadingSpaces ((dropLeadingSpaces cs).reverse)).reverse)

/-- Value of a decimal digit string, as Python `int()` on a `\d+` match. -/
def digitsToNat (ds : List Char) : Nat :=
  ds.foldl (fun n c => 10 * n + (c.toNat - '0'.toNat)) 0

/-- The two configuration options read by `_parse_gacha_command`
(`gacha_default_count`, default 3, and `gacha_max_count`, default 20). -/
structure GachaConf where
  gacha_default_count : Nat := 3
  gacha_max_count : Nat := 20

/-- The parser `ChatChannel._parse_gacha_command(content)`.

The source strips `content`, then tries `re.match(r'^(\d+)\s*(.*)$', content)`.
Because `.` never matches a newline and `$` (without MULTILINE) only matches at
the end of the stripped string, the regex matches exactly when the stripped
content starts with a digit and the remainder after the leading digit run and
the following maximal whitespace run contains no newline; the count is then the
leading digit run and the prompt is that remainder (its own `strip()` is the
identity there).  Otherwise the count is `gacha_default_count` and the prompt is
the whole stripped content.  Finally the count is clamped: above
`gacha_max_count` it becomes `gacha_max_count`, below 1 it becomes 1. -/
def parse_gacha_command (cfg : GachaConf) (content : String) : Nat × String :=
  let cs := stripChars content.data
  if cs.isEmpty then (cfg.gacha_default_count, "")
  else
    let ds := cs.takeWhile Char.isDigit
    let tail := cs.dropWhile Char.isDigit
    let r := tail.dropWhile pyIsSpace
    let p :=
      if ds ≠ [] ∧ r.contains '\n' = false then
        (digitsToNat ds, String.mk r)
      else
        (cfg.gacha_default_count, String.mk cs)
    let count := if p.1 > cfg.gacha_max_count then cfg.gacha_max_count else p.1
    let count2 := if count < 1 then 1 else count
    (count2, p.2)

/-! ### Deduplication cache (`processed_messages`, `cleanup_expired_cache`,
and the dedup fragment at the top of `ChatChannel._handle`) -/

/-- The `processed_messages` dict: message id ↦ first-seen timestamp.
Keys are unique by construction (an id is inserted only when absent). -/
abbrev DedupState := List (Nat × Nat)

/-- Dict membership / lookup on `processed_messages`. -/
def dlookup : DedupState → Nat → Option Nat
  | [], _ => none
  | (i, t) :: rest, id => if i = id then some t else dlookup rest id

/-- The sweep `cleanup_expired_cache()`: delete every entry whose age exceeds
`MESSAGE_EXPIRY = 300` seconds (`current_time - timestamp > 300`, i.e.
`timestamp + 300 < now`). -/
def cleanup_expired_cache (now : Nat) (s : DedupState) : DedupState :=
  s.filter (fun e => !(decide (e.2 + 300 < now)))

/-- Result of one pass through the dedup fragment of `_handle`:
was the message accepted for processing, did the periodic sweep fire,
and the cache afterwards. -/
structure DedupResult where
  accepted : Bool
  swept : Bool
  state : DedupState
  deriving DecidableEq, Repr

/-- The dedup fragment of `ChatChannel._handle` (lines 246-262): a message
without an id (`msg_id` falsy) is always accepted and leaves the cache alone;
an id already in `processed_messages` is rejected; otherwise the id is recorded
with the current time and, when the dict size is now a multiple of 100,
`cleanup_expired_cache` runs. -/
def dedupStep (s : DedupState) (msgId : Option Nat) (now : Nat) : DedupResult :=
  match msgId with
  | none => ⟨true, false, s⟩
  | some id =>
    if (dlookup s id).isSome then ⟨false, false, s⟩
    else
      let s1 := (id, now) :: s
      if s1.length % 100 = 0 then ⟨true, true, cleanup_expired_cache now s1⟩
      else ⟨true, false, s1⟩

/-- Fold a trace of `(msg_id, time)` arrivals through the dedup fragment. -/
def runDedup (s : DedupState) : List (Option Nat × Nat) → DedupState
  | [] => s
  | (mid, t) :: rest => runDedup (dedupStep s mid t).state rest

/-- The per-arrival sweep flags along a trace: element k is whether the
periodic cleanup fired while handling arrival k. -/
def sweptFlags (s : DedupState) : List (Option Nat × Nat) → List Bool
  | [] => []
  | (mid, t) :: rest =>
    let r := dedupStep s mid t
    r.swept :: sweptFlags r.state rest

/-- Every arrival in the (id-bearing) trace finds its id absent, i.e. every
arrival is a successful insertion into `processed_messages`. -/
def allFresh (s : DedupState) : List (Nat × Nat) → Bool
  | [] => true
  | (id, t) :: rest =>
    (dlookup s id).isNone && allFresh (dedupStep s (some id) t).state rest

/-- The periodic sweep fires on no arrival of the (id-bearing) trace. -/
def noSweep (s : DedupState) : List (Nat × Nat) → Bool
  | [] => true
  | (id, t) :: rest =>
    !(dedupStep s (some id) t).swept && noSweep (dedupStep s (some id) t).state rest

/-! ### Session registry and dispatch loop (`produce`, `consume`,
`_thread_pool_callback`) -/

/-- A queued context: its type plus its textual content (used only for the
`#`-command priority test in `produce`). -/
structure QCtx where
  ctype : ContextType
  content : String
  deriving DecidableEq, Repr

/-- The timing constants of the coalescing windows. -/
def TEXT_WAIT_TIME : Nat := 10

/-- The constant `IMAGE_WAIT_TIME = 20`: countdown reset granted by each new image. -/
def IMAGE_WAIT_TIME : Nat := 20

/-- A `pending_text_messages` entry as seen by its own `immediate_text_handler`
when the wait ends: the held text reply computed up front, the images attached
while waiting, and the cancellation flag set by a superseding text message. -/
structure TextWindow where
  reply : Reply
  images : List String
  cancelled : Bool
  deriving DecidableEq, Repr

/-- Outbound units the text window can emit. -/
inductive Outbound
  | imageResult (imgPath : String) (rep : Reply)
  | textResult (rep : Reply)
  deriving DecidableEq, Repr

/-- The closure phase of `immediate_text_handler` (lines 430-471): if any
images were attached, each image is sent to the collaborator together with the
original text query (`imgReply` is `build_reply_content` on that image) and
each non-empty result is sent — the held text reply is dropped; with no images,
a cancelled window sends nothing, otherwise the held text reply is sent when
non-empty. -/
def closeTextWindow (w : TextWindow) (imgReply : String → Reply) : List Outbound :=
  if w.images.isEmpty = false then
    w.images.filterMap (fun p =>
      let r := imgReply p
      if r.content ≠ "" then some (Outbound.imageResult p r) else none)
  else if w.cancelled then []
  else if w.reply.content ≠ "" then [Outbound.textResult w.reply] else []

/-- The instant the no-image text reply is sent: the handler starts `startLag`
seconds after the text message arrived (worker-pool scheduling delay), sleeps
`TEXT_WAIT_TIME = 10` seconds, then loops in 2-second polls (`extraPolls`
iterations) before closing and sending. -/
def textReplySendTime (arrival startLag extraPolls : Nat) : Nat :=
  arrival + startLag + TEXT_WAIT_TIME + 2 * extraPolls

/-! ### Create-then-reference-image window (`immediate_image_create_handler`) -/

/-- Requests the closure phase can issue to the KGAPI image collaborator. -/
inductive ApiCall
  | editImg (prompt : String) (refs : List String)
  | createImg (prompt : String)
  deriving DecidableEq, Repr

/-- Outbound messages of the image-create / gacha closure phases (decoration by
`_decorate_reply` and the cosmetic once-per-minute reminder thread are
elided). -/
inductive OutMsg
  | tip (text : String)
  | imageUrl (url : String)
  | errMsg (text : String)
  deriving DecidableEq, Repr

/-- What one closure run did: the API calls issued and the messages sent. -/
structure CloseResult where
  calls : List ApiCall
  sends : List OutMsg
  deriving DecidableEq, Repr

/-- Python `final_content and final_content.strip()`: non-empty and not
whitespace-only. -/
def hasPromptText (s : String) : Bool :=
  s ≠ "" && String.mk (stripChars s.data) ≠ ""

/-- The closure phase of `immediate_image_create_handler` (lines 541-614),
after the wait loop has elapsed, on the window's accumulated reference images
and prompt.  `editRes` / `createRes` are the `(ok, url_or_error)` results the
KGAPI collaborator would return for the edit and create call respectively.

* reference images present and a non-empty prompt: a tip message, one
  `edit_img(prompt, refs)` call, and its result (image on success, error
  otherwise);
* reference images present but empty/whitespace prompt: no API call —
  `(ok, result) = (False, "请提供图片描述")` — and that error is sent;
* no reference images but a non-empty prompt: a tip message, one
  `create_img(prompt)` call, and its result;
* neither: the entry is deleted and nothing is sent. -/
def closeImageCreate (refImages : List String) (content : String)
    (editRes : Bool × String) (createRes : Bool × String) : CloseResult :=
  if refImages.isEmpty = false then
    if hasPromptText content then
      { calls := [ApiCall.editImg content refImages],
        sends := [OutMsg.tip ("收到了" ++ toString refImages.length ++
            "张图片，以及提示词：" ++ content ++ "\n正在为您生图，请等待1-2分钟"),
          if editRes.1 then OutMsg.imageUrl editRes.2 else OutMsg.errMsg editRes.2] }
    else
      { calls := [], sends := [OutMsg.errMsg "请提供图片描述"] }
  else if hasPromptText content then
    { calls := [ApiCall.createImg content],
      sends := [OutMsg.tip ("收到了提示词：" ++ content ++
          "\n正在为您生图，请等待1-2分钟"),
        if createRes.1 then OutMsg.imageUrl createRes.2 else OutMsg.errMsg createRes.2] }
  else
    { calls := [], sends := [] }

/-! ### Empty-reply retry controller (`ChatChannel._handle`, lines 266-344) -/

/-- The retry-relevant surroundings of one `_handle` invocation: the context's
type and whether its session currently has an open `pending_image_create` /
`pending_text_messages` window (a snapshot — the claim concerns the branch
logic, not interleaved mutation of those dicts). -/
structure HandleEnv where
  ctype : ContextType
  inPendingImageCreate : Bool
  inPendingTextMessages : Bool
  deriving DecidableEq, Repr

/-- The disjunction of the loop-break conditions other than a non-empty reply:
asynchronous kinds (IMAGE_CREATE, GACHA_CREATE) and contexts absorbed into an
open coalescing window (TEXT or IMAGE whose session has a pending window). -/
def asyncOrAbsorbed (e : HandleEnv) : Bool :=
  (e.ctype = ContextType.IMAGE_CREATE || e.ctype = ContextType.GACHA_CREATE) ||
  (e.ctype = ContextType.TEXT && e.inPendingImageCreate) ||
  (e.ctype = ContextType.TEXT && e.inPendingTextMessages) ||
  (e.ctype = ContextType.IMAGE && e.inPendingImageCreate) ||
  (e.ctype = ContextType.IMAGE && e.inPendingTextMessages)

/-- Result of the retry loop: the last reply, the final `retry_count`, the
number of `_generate_reply` calls made, and the backoff sleeps performed. -/
structure LoopResult where
  reply : Reply
  retryCount : Nat
  genCalls : Nat
  sleeps : List Nat
  deriving DecidableEq, Repr

/-- The `while retry_count <= max_retry` loop of `_handle` (lines 272-313).
`gen k` is the reply produced by the (k+1)-th `_generate_reply` call; the
`fuel` argument is `maxRetry + 1 - rc`, enough for every remaining iteration
(the loop breaks before exhausting it).  Break conditions, in source order:
non-empty reply; IMAGE_CREATE/GACHA_CREATE; TEXT with a pending image-create
window; TEXT with a pending text window; IMAGE with a pending image-create
window; IMAGE with a pending text window.  Otherwise, with retries left,
`retry_count` is incremented and the loop sleeps `2 * retry_count` seconds;
with none left, `retry_count` is incremented one final time and the loop
ends. -/
def retryAux (gen : Nat → Reply) (e : HandleEnv) (maxRetry : Nat) :
    Nat → Nat → Nat → List Nat → LoopResult
  | 0, rc, calls, sleeps => ⟨{}, rc, calls, sleeps⟩
  | fuel + 1, rc, calls, sleeps =>
    let r := gen calls
    if r.content ≠ "" then ⟨r, rc, calls + 1, sleeps⟩
    else if e.ctype = ContextType.IMAGE_CREATE ∨ e.ctype = ContextType.GACHA_CREATE then
      ⟨r, rc, calls + 1, sleeps⟩
    else if e.ctype = ContextType.TEXT ∧ e.inPendingImageCreate then
      ⟨r, rc, calls + 1, sleeps⟩
    else if e.ctype = ContextType.TEXT ∧ e.inPendingTextMessages then
      ⟨r, rc, calls + 1, sleeps⟩
    else if e.ctype = ContextType.IMAGE ∧ e.inPendingImageCreate then
      ⟨r, rc, calls + 1, sleeps⟩
    else if e.ctype = ContextType.IMAGE ∧ e.inPendingTextMessages then
      ⟨r, rc, calls + 1, sleeps⟩
    else if rc < maxRetry then
      retryAux gen e maxRetry fuel (rc + 1) (calls + 1) (sleeps ++ [2 * (rc + 1)])
    else ⟨r, rc + 1, calls + 1, sleeps⟩

/-- What `_handle` does after the loop. -/
inductive HandleOut
  | sendReply (r : Reply)
  | sendError (text : String)
  | noOutput
  deriving DecidableEq, Repr

/-- The post-loop dispatch of `_handle` (lines 318-344): a non-empty reply is
decorated and sent; an empty reply is silently dropped for the asynchronous
kinds and for contexts absorbed into a pending window (conditions in source
order); otherwise the apology error naming the attempt count is sent. -/
def handleAfterLoop (e : HandleEnv) (res : LoopResult) : HandleOut :=
  if res.reply.content ≠ "" then HandleOut.sendReply res.reply
  else if e.ctype = ContextType.IMAGE_CREATE ∨ e.ctype = ContextType.GACHA_CREATE then
    HandleOut.noOutput
  else if e.ctype = ContextType.IMAGE ∧ e.inPendingImageCreate then HandleOut.noOutput
  else if e.ctype = ContextType.IMAGE ∧ e.inPendingTextMessages then HandleOut.noOutput
  else if e.ctype = ContextType.TEXT ∧ e.inPendingImageCreate then HandleOut.noOutput
  else if e.ctype = ContextType.TEXT ∧ e.inPendingTextMessages then HandleOut.noOutput
  else HandleOut.sendError
    ("抱歉,我尝试了 " ++ toString res.retryCount ++ " 次但仍无法生成回复,请稍后再试")

/-- The retry controller of `_handle`: run the loop (`retry_count` starts at 0,
so at most `max_retry + 1` generation calls) and dispatch on its result. -/
def handleRetry (maxRetry : Nat) (gen : Nat → Reply) (e : HandleEnv) :
    LoopResult × HandleOut :=
  let res := retryAux gen e maxRetry (maxRetry + 1) 0 0 []
  (res, handleAfterLoop e res)

/-! ### Gacha batch window (`gacha_image_create_handler`) -/

/-- Possible outcomes of one generation call inside the gacha loop:
`ok url`, a `(False, err)` return, or a raised exception. -/
inductive GenOutcome
  | ok (url : String)
  | failed (err : String)
  | exn (msg : String)
  deriving DecidableEq, Repr

/-- Messages emitted by the gacha batch closure, carrying the payloads the
source interpolates into its formatted strings. -/
inductive GMsg
  | startNote (count : Nat) (prompt : String)
  | image (url : String)
  | progress (idx total : Nat)
  | genFail (idx total : Nat) (err : String)
  | summary (succ fail : Nat)
  deriving DecidableEq, Repr

/-- State threaded through the gacha generation loop. -/
structure GachaResult where
  msgs : List GMsg
  succ : Nat
  fail : Nat
  creates : Nat
  edits : Nat
  deriving DecidableEq, Repr

/-- The `for i in range(gacha_count_final)` loop of `gacha_image_create_handler`
(lines 712-753), iterations `idx, idx+1, …` with `n` of them left;
`outcomes i` is what the i-th generation call does.  With reference images
present each call is `edit_img`, otherwise `create_img`.  A successful call
sends the image and a progress note and bumps the success counter; a failed
call or an exception sends a failure note and bumps the failure counter. -/
def gachaLoop (outcomes : Nat → GenOutcome) (useEdit : Bool) (total : Nat) :
    Nat → Nat → GachaResult → GachaResult
  | 0, _, acc => acc
  | n + 1, idx, acc =>
    let called : GachaResult :=
      if useEdit then { acc with edits := acc.edits + 1 }
      else { acc with creates := acc.creates + 1 }
    let next : GachaResult :=
      match outcomes idx with
      | GenOutcome.ok url =>
        { called with
          msgs := called.msgs ++ [GMsg.image url, GMsg.progress (idx + 1) total],
          succ := called.succ + 1 }
      | GenOutcome.failed err =>
        { called with
          msgs := called.msgs ++ [GMsg.genFail (idx + 1) total err],
          fail := called.fail + 1 }
      | GenOutcome.exn msg =>
        { called with
          msgs := called.msgs ++ [GMsg.genFail (idx + 1) total msg],
          fail := called.fail + 1 }
    gachaLoop outcomes useEdit total n (idx + 1) next

/-- The closure phase of `gacha_image_create_handler` (lines 688-768) on the
window's accumulated state: count `N`, prompt, reference images.  With neither
prompt nor images the window is discarded with no output; otherwise a start
note is sent, `N` sequential generation calls run (edit mode iff reference
images exist), and a final summary reports the success/failure counts. -/
def gachaClose (count : Nat) (content : String) (refs : List String)
    (outcomes : Nat → GenOutcome) : GachaResult :=
  if content = "" ∧ refs.isEmpty then ⟨[], 0, 0, 0, 0⟩
  else
    let body := gachaLoop outcomes (!refs.isEmpty) count count 0
      ⟨[GMsg.startNote count content], 0, 0, 0, 0⟩
    { body with msgs := body.msgs ++ [GMsg.summary body.succ body.fail] }

/-! ### Session cancellation (`cancel_session`, `futures`) -/

/-- The lifecycle status of a `concurrent.futures.Future` submitted to the
worker pool. -/
inductive FutStatus
  | pending
  | running
  | done
  | cancelled
  deriving DecidableEq, Repr

/-- The effect of `Future.cancel()`: it succeeds only on a not-yet-started future; a running or
completed future is left untouched. -/
def futCancel : FutStatus → FutStatus
  | FutStatus.pending => FutStatus.cancelled
  | s => s

/-- The state `cancel_session` touches: `ChatChannel.sessions` (only the queue
matters here — the semaphore member is untouched) and `ChatChannel.futures`.
Both are Python dicts, hence partial maps: `produce` creates the `sessions`
entry at once (line 1048), but the `futures` entry for a session appears only
when the consume loop first dispatches one of its contexts (lines
1073-1075). -/
structure ChanState where
  sessions : Nat → Option (List QCtx)
  futures : Nat → Option (List FutStatus)

/-- The method `ChatChannel.cancel_session(session_id)` (lines 1086-1094):
under the lock, when the session is registered, iterate
`self.futures[session_id]` cancelling every future, then replace the queue
with a fresh empty `Dequeue`; an unregistered session is left alone.  The
subscript `self.futures[session_id]` (line 1089) raises an uncaught
`KeyError` — modelled as the `none` result, with no state mutated — when the
session is registered but nothing was ever dispatched for it, so the
queue-replacement line 1094 is never reached in that state. -/
def cancel_session (st : ChanState) (sid : Nat) : Option ChanState :=
  match st.sessions sid with
  | none => some st
  | some _ =>
    match st.futures sid with
    | none => none
    | some fs =>
      some { sessions := fun j => if j = sid then some [] else st.sessions j,
             futures := fun j => if j = sid then some (fs.map futCancel)
               else st.futures j }

/-! ### Delivery retry (`ChatChannel._send`) -/

/-- What one `self.send(reply, context)` attempt does. -/
inductive SendOutcome
  | ok
  | notImpl
  | err (msg : String)
  deriving DecidableEq, Repr

/-- Result of `_send`: platform-send attempts made, backoff sleeps performed,
and whether the error-notification collaborator was called. -/
structure SendResult where
  attempts : Nat
  sleeps : List Nat
  notified : Bool
  deriving DecidableEq, Repr

/-- The method `ChatChannel._send(reply, context, retry_cnt)` (lines 1005-1018).
`beh rc` is the outcome of the attempt at recursion depth `rc`: success
returns; `NotImplementedError` returns immediately (no retry, no
notification); any other exception sleeps `3 + 3 * retry_cnt` seconds and
recurses with `retry_cnt + 1` while `retry_cnt < 2`, and on exhaustion calls
`notify_channel_error`.  `fuel` bounds the recursion depth (3 suffices). -/
def sendAux (beh : Nat → SendOutcome) : Nat → Nat → SendResult
  | 0, _ => ⟨0, [], false⟩
  | fuel + 1, rc =>
    match beh rc with
    | SendOutcome.ok => ⟨1, [], false⟩
    | SendOutcome.notImpl => ⟨1, [], false⟩
    | SendOutcome.err _ =>
      if rc < 2 then
        let r := sendAux beh fuel (rc + 1)
        ⟨r.attempts + 1, (3 + 3 * rc) :: r.sleeps, r.notified⟩
      else ⟨1, [], true⟩

/-- Entry point `_send` as called by `_send_reply`: `retry_cnt = 0`. -/
def sendRun (beh : Nat → SendOutcome) : SendResult :=
  sendAux beh 3 0

/-! ## Theorems -/

/-- Claim C10: if the platform send operation raises `NotImplementedError`,
`_send` gives up immediately — one attempt, zero retries, no escalation to the
error-notification collaborator; any other repeatedly-failing delivery is
retried twice more with backoff `3 + 3 * attempt` seconds (3s then 6s) and the
third failure escalates to `notify_channel_error`. -/
theorem c10_send_not_implemented (beh : Nat → SendOutcome) :
    (beh 0 = SendOutcome.notImpl →
      sendRun beh = ⟨1, [], false⟩) ∧
    ((∀ k, ∃ m, beh k = SendOutcome.err m) →
      (sendRun beh).attempts = 3 ∧ (sendRun beh).sleeps = [3, 6] ∧
        (sendRun beh).notified = true) := by
  constructor
  · intro h
    simp [sendRun, sendAux, h]
  · intro h
    obtain ⟨m0, h0⟩ := h 0
    obtain ⟨m1, h1⟩ := h 1
    obtain ⟨m2, h2⟩ := h 2
    simp [sendRun, sendAux, h0, h1, h2]

/-- Concrete instantiation of the C10 theorem. -/
theorem c10_send_not_implemented_witness :
    sendRun (fun _ => SendOutcome.notImpl) = ⟨1, [], false⟩ ∧
      (sendRun (fun _ => SendOutcome.err "boom")).attempts = 3 ∧
      (sendRun (fun _ => SendOutcome.err "boom")).sleeps = [3, 6] ∧
      (sendRun (fun _ => SendOutcome.err "boom")).notified = true :=
  ⟨(c10_send_not_implemented (fun _ => SendOutcome.notImpl)).1 rfl,
   (c10_send_not_implemented (fun _ => SendOutcome.err "boom")).2
     (fun _ => ⟨"boom", rfl⟩)⟩

/-- Claim C8 fails on the code: for a session registered by `produce` whose
contexts have not yet been dispatched by the consume loop, `self.futures` has
no entry, so `cancel_session` raises `KeyError` at the
`self.futures[session_id]` subscript (line 1089) before reaching the
queue-replacement statement — the queued context is neither cancelled nor
removed, although the claim promises the queue is replaced for every
session. -/
theorem c8_keyerror_counterexample :
    (⟨fun j => if j = 0 then some [⟨ContextType.TEXT, "x"⟩] else none,
      fun _ => none⟩ : ChanState).sessions 0
        = some [⟨ContextType.TEXT, "x"⟩] ∧
    cancel_session
      ⟨fun j => if j = 0 then some [⟨ContextType.TEXT, "x"⟩] else none,
       fun _ => none⟩ 0 = none :=
  ⟨rfl, rfl⟩

/-- Claim C8 (amended): for a registered session that has a futures record
(at least one of its tasks was dispatched since process start),
`cancel_session` replaces the queue with an empty one, cancels every pending
(submitted-but-not-yet-started) future, leaves running futures untouched —
they complete the full pipeline uninterrupted — and touches no other session;
for a registered session with no futures record it raises `KeyError` and
mutates nothing, leaving the queue in place. -/
theorem c8_cancel_session_amended (st : ChanState) (sid : Nat) (q : List QCtx)
    (h : st.sessions sid = some q) :
    (∀ fs, st.futures sid = some fs →
      ∃ st', cancel_session st sid = some st' ∧
        st'.sessions sid = some [] ∧
        st'.futures sid = some (fs.map futCancel) ∧
        (∀ i, fs.get? i = some FutStatus.pending →
          (fs.map futCancel).get? i = some FutStatus.cancelled) ∧
        (∀ i, fs.get? i = some FutStatus.running →
          (fs.map futCancel).get? i = some FutStatus.running) ∧
        (∀ j, j ≠ sid → st'.sessions j = st.sessions j ∧
          st'.futures j = st.futures j)) ∧
    (st.futures sid = none → cancel_session st sid = none) := by
  constructor
  · intro fs hf
    refine ⟨{ sessions := fun j => if j = sid then some [] else st.sessions j,
              futures := fun j => if j = sid then some (fs.map futCancel)
                else st.futures j }, ?_, ?_, ?_, ?_, ?_, ?_⟩
    · simp [cancel_session, h, hf]
    · simp
    · simp
    · intro i hi
      rw [List.get?_eq_getElem?] at hi ⊢
      simp [List.getElem?_map, hi, futCancel]
    · intro i hi
      rw [List.get?_eq_getElem?] at hi ⊢
      simp [List.getElem?_map, hi, futCancel]
    · intro j hj
      simp [hj]
  · intro hf
    simp [cancel_session, h, hf]

/-- Concrete instantiation of the amended C8 theorem: a session with a
running and a pending future is cancelled successfully; a registered session
without a futures record hits the `KeyError` path. -/
theorem c8_cancel_session_amended_witness :
    (cancel_session
        ⟨fun j => if j = 0 then some [⟨ContextType.TEXT, "x"⟩] else none,
         fun j => if j = 0 then some [FutStatus.running, FutStatus.pending]
           else none⟩ 0).isSome = true ∧
    cancel_session
      ⟨fun j => if j = 0 then some [⟨ContextType.TEXT, "y"⟩] else none,
       fun _ => none⟩ 0 = none := by
  constructor
  · obtain ⟨st', hst', _⟩ := (c8_cancel_session_amended
      ⟨fun j => if j = 0 then some [⟨ContextType.TEXT, "x"⟩] else none,
       fun j => if j = 0 then some [FutStatus.running, FutStatus.pending]
         else none⟩
      0 [⟨ContextType.TEXT, "x"⟩] rfl).1 [FutStatus.running, FutStatus.pending] rfl
    rw [hst']
    rfl
  · exact (c8_cancel_session_amended
      ⟨fun j => if j = 0 then some [⟨ContextType.TEXT, "y"⟩] else none,
       fun _ => none⟩ 0 [⟨ContextType.TEXT, "y"⟩] rfl).2 rfl

/-- With images attached, the closure of the text window is exactly the
filter-map of the per-image collaborator results (lines 433-456). -/
theorem closeTextWindow_with_images (w : TextWindow) (f : String → Reply)
    (hne : w.images.isEmpty = false) :
    closeTextWindow w f = w.images.filterMap (fun p =>
      if (f p).content ≠ "" then some (Outbound.imageResult p (f p)) else none) := by
  unfold closeTextWindow
  rw [hne, if_pos rfl]

/-- Claim C2: when a text-then-image window closes (reaches the end of its
wait un-superseded): with at least one attached image only image-augmented
results are emitted and the held standalone text reply is never sent; with no
image only the held text reply is emitted, and it goes out no earlier than
`TEXT_WAIT_TIME = 10` seconds after the text message arrived. -/
theorem c2_text_window_closure (w : TextWindow) (f : String → Reply)
    (arrival startLag extraPolls : Nat) :
    (w.images ≠ [] →
      (∀ o ∈ closeTextWindow w f, ∃ p r, o = Outbound.imageResult p r) ∧
      (∀ r, Outbound.textResult r ∉ closeTextWindow w f)) ∧
    (w.images = [] → w.cancelled = false → w.reply.content ≠ "" →
      closeTextWindow w f = [Outbound.textResult w.reply]) ∧
    arrival + TEXT_WAIT_TIME ≤ textReplySendTime arrival startLag extraPolls := by
  refine ⟨?_, ?_, ?_⟩
  · intro himg
    have hne : w.images.isEmpty = false := by
      cases hw : w.images with
      | nil => exact absurd hw himg
      | cons a l => simp [hw]
    have hall : ∀ o ∈ closeTextWindow w f, ∃ p r, o = Outbound.imageResult p r := by
      intro o ho
      rw [closeTextWindow_with_images w f hne] at ho
      rcases List.mem_filterMap.mp ho with ⟨p, _, hsome⟩
      by_cases hc : (f p).content ≠ ""
      · rw [if_pos hc] at hsome
        exact ⟨p, f p, (Option.some.inj hsome).symm⟩
      · rw [if_neg hc] at hsome
        exact absurd hsome (by simp)
    refine ⟨hall, ?_⟩
    intro r hr
    rcases hall _ hr with ⟨p, r', hpr⟩
    exact Outbound.noConfusion hpr
  · intro him hcan hr
    simp [closeTextWindow, him, hcan, hr]
  · simp only [textReplySendTime, TEXT_WAIT_TIME]
    omega

/-- Concrete instantiation of the C2 theorem: two attached images, and a
no-image window. -/
theorem c2_text_window_closure_witness :
    (∀ o ∈ closeTextWindow ⟨⟨"held"⟩, ["i1", "i2"], false⟩ (fun p => ⟨p⟩),
      ∃ p r, o = Outbound.imageResult p r) ∧
    closeTextWindow ⟨⟨"held"⟩, [], false⟩ (fun p => ⟨p⟩)
      = [Outbound.textResult ⟨"held"⟩] ∧
    5 + TEXT_WAIT_TIME ≤ textReplySendTime 5 1 3 :=
  ⟨((c2_text_window_closure ⟨⟨"held"⟩, ["i1", "i2"], false⟩ (fun p => ⟨p⟩) 5 1 3).1
      (by simp)).1,
   (c2_text_window_closure ⟨⟨"held"⟩, [], false⟩ (fun p => ⟨p⟩) 5 1 3).2.1 rfl rfl
     (by simp),
   (c2_text_window_closure ⟨⟨"held"⟩, [], false⟩ (fun p => ⟨p⟩) 5 1 3).2.2⟩

/-- Claim C3 fails on the code: a create-then-reference-image window closing
with one reference image and an empty accumulated prompt issues NO
edit/image-to-image request (the claim demands one "whatever the prompt is"),
and output IS sent to the user — the error reply `请提供图片描述` — although
the claim's remaining branches would allow no output here. -/
theorem c3_edit_without_prompt_counterexample :
    (closeImageCreate ["a.png"] "" (true, "u") (true, "u")).calls = [] ∧
    (closeImageCreate ["a.png"] "" (true, "u") (true, "u")).sends
      = [OutMsg.errMsg "请提供图片描述"] := by
  constructor <;> rfl

/-- Claim C3 (amended): when a create-then-reference-image window closes: with
reference images and a non-empty (non-whitespace) prompt, exactly one
edit/image-to-image request is issued with those images and the prompt; with
reference images but an empty prompt, no generation request is issued and an
error reply asking for a description is sent; with no reference images and a
non-empty prompt, exactly one text-to-image request is issued; with neither,
the window is discarded and nothing is sent. -/
theorem c3_image_create_closure_amended (refs : List String) (content : String)
    (editRes createRes : Bool × String) :
    (refs ≠ [] → hasPromptText content = true →
      (closeImageCreate refs content editRes createRes).calls
        = [ApiCall.editImg content refs]) ∧
    (refs ≠ [] → hasPromptText content = false →
      (closeImageCreate refs content editRes createRes).calls = [] ∧
      (closeImageCreate refs content editRes createRes).sends
        = [OutMsg.errMsg "请提供图片描述"]) ∧
    (refs = [] → hasPromptText content = true →
      (closeImageCreate refs content editRes createRes).calls
        = [ApiCall.createImg content]) ∧
    (refs = [] → hasPromptText content = false →
      (closeImageCreate refs content editRes createRes).calls = [] ∧
      (closeImageCreate refs content editRes createRes).sends = []) := by
  have hne : refs ≠ [] → refs.isEmpty = false := by
    intro h
    cases hr : refs with
    | nil => exact absurd hr h
    | cons a l => simp [hr]
  refine ⟨?_, ?_, ?_, ?_⟩
  · intro h hp
    simp [closeImageCreate, hne h, hp]
  · intro h hp
    simp [closeImageCreate, hne h, hp]
  · intro h hp
    simp [closeImageCreate, h, hp]
  · intro h hp
    simp [closeImageCreate, h, hp]

/-- Concrete instantiation of the amended C3 theorem, one input per branch. -/
theorem c3_image_create_closure_amended_witness :
    (closeImageCreate ["a.png"] "cat" (true, "u") (true, "u")).calls
      = [ApiCall.editImg "cat" ["a.png"]] ∧
    (closeImageCreate ["a.png"] " " (true, "u") (true, "u")).sends
      = [OutMsg.errMsg "请提供图片描述"] ∧
    (closeImageCreate [] "cat" (true, "u") (true, "u")).calls
      = [ApiCall.createImg "cat"] ∧
    (closeImageCreate [] "" (true, "u") (true, "u")).sends = [] :=
  ⟨(c3_image_create_closure_amended ["a.png"] "cat" (true, "u") (true, "u")).1
      (by simp) (by decide),
   ((c3_image_create_closure_amended ["a.png"] " " (true, "u") (true, "u")).2.1
      (by simp) (by decide)).2,
   (c3_image_create_closure_amended [] "cat" (true, "u") (true, "u")).2.2.1
      rfl (by decide),
   ((c3_image_create_closure_amended [] "" (true, "u") (true, "u")).2.2.2
      rfl (by decide)).2⟩

/-- Claim C6 fails on the code: the gacha command `"5 a\nb"` carries the
explicit leading count 5 (which clamping would leave at 5), but because the
source's regex `^(\d+)\s*(.*)$` cannot match across the embedded newline, the
parsed count falls back to the default 3 and the whole command becomes the
prompt. -/
theorem c6_leading_count_newline_counterexample :
    (parse_gacha_command {} "5 a\nb").1 = 3 ∧
    (parse_gacha_command {} "5 a\nb").1 ≠ 5 ∧
    (parse_gacha_command {} "5 a\nb").2 = "5 a\nb" := by
  refine ⟨by decide, by decide, ?_⟩
  rfl

/-- Claim C6 (amended): the parsed count is always clamped into `[1, 20]`
(`max 1 (min count 20)` with the default configuration); it equals the
clamped explicit leading integer exactly when the stripped command starts with
a digit run AND the remainder after the following whitespace run contains no
newline (then that remainder is the prompt); in every other non-empty case the
count is the default 3 and the whole stripped command is the prompt.  In
particular a requested count of 50 yields 20 and a requested count of 0
yields 1. -/
theorem parse_gacha_of_empty (content : String)
    (hcs : stripChars content.data = []) :
    parse_gacha_command {} content = (3, "") := by
  unfold parse_gacha_command
  rw [if_pos (by simp [hcs])]

theorem parse_gacha_of_match (content : String)
    (hds : (stripChars content.data).takeWhile Char.isDigit ≠ [])
    (hr : (((stripChars content.data).dropWhile Char.isDigit).dropWhile
        pyIsSpace).contains '\n' = false) :
    parse_gacha_command {} content =
      (max 1 (min (digitsToNat ((stripChars content.data).takeWhile Char.isDigit)) 20),
       String.mk (((stripChars content.data).dropWhile Char.isDigit).dropWhile
         pyIsSpace)) := by
  have hne : (stripChars content.data).isEmpty = false := by
    cases hl : stripChars content.data with
    | nil => rw [hl] at hds; simp at hds
    | cons a t => simp
  have hcond : (stripChars content.data).takeWhile Char.isDigit ≠ [] ∧
      (((stripChars content.data).dropWhile Char.isDigit).dropWhile
        pyIsSpace).contains '\n' = false := ⟨hds, hr⟩
  unfold parse_gacha_command
  rw [if_neg (by simp [hne])]
  dsimp only
  rw [if_pos hcond]
  congr 1
  split <;> split <;> omega

theorem parse_gacha_of_fallback (content : String)
    (hcs : stripChars content.data ≠ [])
    (hor : (stripChars content.data).takeWhile Char.isDigit = [] ∨
      (((stripChars content.data).dropWhile Char.isDigit).dropWhile
          pyIsSpace).contains '\n' = true) :
    parse_gacha_command {} content = (3, String.mk (stripChars content.data)) := by
  have hne : (stripChars content.data).isEmpty = false := by
    cases hl : stripChars content.data with
    | nil => exact absurd hl hcs
    | cons a t => simp
  have hcond : ¬((stripChars content.data).takeWhile Char.isDigit ≠ [] ∧
      (((stripChars content.data).dropWhile Char.isDigit).dropWhile
        pyIsSpace).contains '\n' = false) := by
    rintro ⟨hds, hrf⟩
    rcases hor with h | h
    · exact hds h
    · rw [h] at hrf
      cases hrf
  unfold parse_gacha_command
  rw [if_neg (by simp [hne])]
  dsimp only
  rw [if_neg hcond]
  rfl

theorem c6_gacha_parse_amended :
    (∀ content : String,
      1 ≤ (parse_gacha_command {} content).1 ∧
        (parse_gacha_command {} content).1 ≤ 20) ∧
    (∀ content : String,
      (stripChars content.data).takeWhile Char.isDigit ≠ [] →
      (((stripChars content.data).dropWhile Char.isDigit).dropWhile
          pyIsSpace).contains '\n' = false →
      parse_gacha_command {} content =
        (max 1 (min (digitsToNat ((stripChars content.data).takeWhile Char.isDigit)) 20),
         String.mk (((stripChars content.data).dropWhile Char.isDigit).dropWhile
           pyIsSpace))) ∧
    (∀ content : String,
      stripChars content.data ≠ [] →
      ((stripChars content.data).takeWhile Char.isDigit = [] ∨
        (((stripChars content.data).dropWhile Char.isDigit).dropWhile
            pyIsSpace).contains '\n' = true) →
      parse_gacha_command {} content = (3, String.mk (stripChars content.data))) ∧
    (parse_gacha_command {} "50 x").1 = 20 ∧
    (parse_gacha_command {} "0 x").1 = 1 := by
  refine ⟨?_, parse_gacha_of_match, parse_gacha_of_fallback, by decide, by decide⟩
  intro content
  by_cases hcs : stripChars content.data = []
  · rw [parse_gacha_of_empty content hcs]
    exact ⟨by norm_num, by norm_num⟩
  · by_cases hds : (stripChars content.data).takeWhile Char.isDigit = []
    · rw [parse_gacha_of_fallback content hcs (Or.inl hds)]
      exact ⟨by norm_num, by norm_num⟩
    · by_cases hr : (((stripChars content.data).dropWhile Char.isDigit).dropWhile
          pyIsSpace).contains '\n' = true
      · rw [parse_gacha_of_fallback content hcs (Or.inr hr)]
        exact ⟨by norm_num, by norm_num⟩
      · rw [Bool.not_eq_true] at hr
        rw [parse_gacha_of_match content hds hr]
        exact ⟨by omega, by omega⟩

/-- Concrete instantiation of the amended C6 theorem. -/
theorem c6_gacha_parse_amended_witness :
    (1 ≤ (parse_gacha_command {} "7 dog").1 ∧ (parse_gacha_command {} "7 dog").1 ≤ 20) ∧
    parse_gacha_command {} "7 dog" = (7, "dog") ∧
    parse_gacha_command {} "scene" = (3, "scene") :=
  ⟨c6_gacha_parse_amended.1 "7 dog",
   c6_gacha_parse_amended.2.1 "7 dog" (by decide) (by decide),
   c6_gacha_parse_amended.2.2.1 "scene" (by decide) (Or.inl (by decide))⟩

/-- A per-generation report message of the gacha loop (a progress note on
success, a failure note otherwise). -/
def isReport : GMsg → Bool
  | GMsg.progress _ _ => true
  | GMsg.genFail _ _ _ => true
  | _ => false

/-- Loop invariant of the gacha generation loop: `n` iterations make `n`
generation calls (all creates in text-to-image mode), add `n` to the combined
success/failure count, and append exactly one report message per iteration. -/
theorem gachaLoop_invariant (o : Nat → GenOutcome) (ue : Bool) (t : Nat) :
    ∀ n idx acc,
      (gachaLoop o ue t n idx acc).succ + (gachaLoop o ue t n idx acc).fail
          = acc.succ + acc.fail + n ∧
      (gachaLoop o ue t n idx acc).creates
          = acc.creates + (if ue then 0 else n) ∧
      (gachaLoop o ue t n idx acc).edits = acc.edits + (if ue then n else 0) ∧
      ((gachaLoop o ue t n idx acc).msgs.countP (fun m => isReport m))
          = acc.msgs.countP (fun m => isReport m) + n := by
  intro n
  induction n with
  | zero =>
    intro idx acc
    simp [gachaLoop]
  | succ n ih =>
    intro idx acc
    cases ue <;> rcases ho : o idx with url | err | msg <;>
      simp only [gachaLoop, ho, Bool.false_eq_true, if_true, if_false,
        ite_true, ite_false] <;>
      refine ⟨?_, ?_, ?_, ?_⟩
    all_goals first
      | (rw [(ih (idx + 1) _).1]; simp; try omega)
      | (rw [(ih (idx + 1) _).2.1]; simp; try omega)
      | (rw [(ih (idx + 1) _).2.2.1]; simp; try omega)
      | (rw [(ih (idx + 1) _).2.2.2]; simp [List.countP_append, isReport]; try omega)

/-- Claim C7: a gacha batch window closing with count `N`, non-empty content
and no reference images issues exactly `N` sequential text-to-image
(`create_img`) calls and no edit calls; each call is reported individually
(exactly `N` per-generation report messages); and the batch ends with a
summary message whose success and failure counts sum to `N`. -/
theorem c7_gacha_batch_closure (count : Nat) (content : String)
    (outcomes : Nat → GenOutcome) (hcontent : content ≠ "") :
    (gachaClose count content [] outcomes).creates = count ∧
    (gachaClose count content [] outcomes).edits = 0 ∧
    (gachaClose count content [] outcomes).succ
      + (gachaClose count content [] outcomes).fail = count ∧
    (gachaClose count content [] outcomes).msgs.countP (fun m => isReport m)
      = count ∧
    ∃ pre, (gachaClose count content [] outcomes).msgs
      = pre ++ [GMsg.summary (gachaClose count content [] outcomes).succ
          (gachaClose count content [] outcomes).fail] := by
  have hno : ¬(content = "" ∧ ([] : List String).isEmpty = true) := by
    rintro ⟨h, _⟩
    exact hcontent h
  rcases gachaLoop_invariant outcomes (!([] : List String).isEmpty) count count 0
      ⟨[GMsg.startNote count content], 0, 0, 0, 0⟩ with ⟨h1, h2, h3, h4⟩
  constructor
  · show (gachaClose count content [] outcomes).creates = count
    unfold gachaClose
    rw [if_neg hno]
    dsimp only
    rw [h2]
    simp
  constructor
  · unfold gachaClose
    rw [if_neg hno]
    dsimp only
    rw [h3]
    simp
  constructor
  · unfold gachaClose
    rw [if_neg hno]
    dsimp only
    rw [h1]
    simp
  constructor
  · unfold gachaClose
    rw [if_neg hno]
    dsimp only
    rw [List.countP_append, h4]
    simp [isReport]
  · refine ⟨(gachaLoop outcomes (!([] : List String).isEmpty) count count 0
      ⟨[GMsg.startNote count content], 0, 0, 0, 0⟩).msgs, ?_⟩
    unfold gachaClose
    rw [if_neg hno]

/-- Concrete instantiation of the C7 theorem: a batch of 2, one success and
one failure. -/
theorem c7_gacha_batch_closure_witness :
    (gachaClose 2 "cat" []
        (fun i => if i = 0 then GenOutcome.ok "u" else GenOutcome.failed "e")).creates
      = 2 ∧
    (gachaClose 2 "cat" []
        (fun i => if i = 0 then GenOutcome.ok "u" else GenOutcome.failed "e")).succ
      + (gachaClose 2 "cat" []
        (fun i => if i = 0 then GenOutcome.ok "u" else GenOutcome.failed "e")).fail
      = 2 :=
  ⟨(c7_gacha_batch_closure 2 "cat"
      (fun i => if i = 0 then GenOutcome.ok "u" else GenOutcome.failed "e")
      (by decide)).1,
   (c7_gacha_batch_closure 2 "cat"
      (fun i => if i = 0 then GenOutcome.ok "u" else GenOutcome.failed "e")
      (by decide)).2.2.1⟩

/-- Unpacking `asyncOrAbsorbed e = false` into the five break conditions. -/
theorem asyncOrAbsorbed_false_iff (e : HandleEnv) : asyncOrAbsorbed e = false ↔
    ¬(e.ctype = ContextType.IMAGE_CREATE ∨ e.ctype = ContextType.GACHA_CREATE) ∧
    ¬(e.ctype = ContextType.TEXT ∧ e.inPendingImageCreate = true) ∧
    ¬(e.ctype = ContextType.TEXT ∧ e.inPendingTextMessages = true) ∧
    ¬(e.ctype = ContextType.IMAGE ∧ e.inPendingImageCreate = true) ∧
    ¬(e.ctype = ContextType.IMAGE ∧ e.inPendingTextMessages = true) := by
  obtain ⟨ct, b1, b2⟩ := e
  cases ct <;> cases b1 <;> cases b2 <;> simp [asyncOrAbsorbed]

/-- When every generation attempt is empty and no break condition applies, the
retry loop started at `retry_count = rc` with `maxRetry - rc = d` retries left
runs all of them: one generation call per iteration, backoff sleeps
`2*(rc+1), …, 2*maxRetry`, and a final `retry_count` of `maxRetry + 1`. -/
theorem retryAux_exhaust (gen : Nat → Reply) (e : HandleEnv) (maxRetry : Nat)
    (hgen : ∀ k, (gen k).content = "")
    (h1 : ¬(e.ctype = ContextType.IMAGE_CREATE ∨ e.ctype = ContextType.GACHA_CREATE))
    (h2 : ¬(e.ctype = ContextType.TEXT ∧ e.inPendingImageCreate = true))
    (h3 : ¬(e.ctype = ContextType.TEXT ∧ e.inPendingTextMessages = true))
    (h4 : ¬(e.ctype = ContextType.IMAGE ∧ e.inPendingImageCreate = true))
    (h5 : ¬(e.ctype = ContextType.IMAGE ∧ e.inPendingTextMessages = true)) :
    ∀ d rc calls sleeps, rc + d = maxRetry →
      retryAux gen e maxRetry (d + 1) rc calls sleeps =
        ⟨gen (calls + d), maxRetry + 1, calls + d + 1,
          sleeps ++ (List.range d).map (fun i => 2 * (rc + i + 1))⟩ := by
  intro d
  induction d with
  | zero =>
    intro rc calls sleeps hrc
    have hrceq : rc = maxRetry := by omega
    subst hrceq
    simp [retryAux, hgen, h1, h2, h3, h4, h5]
  | succ d ih =>
    intro rc calls sleeps hrc
    have hlt : rc < maxRetry := by omega
    have hstep : retryAux gen e maxRetry (d + 1 + 1) rc calls sleeps =
        retryAux gen e maxRetry (d + 1) (rc + 1) (calls + 1)
          (sleeps ++ [2 * (rc + 1)]) := by
      simp [retryAux, hgen, h1, h2, h3, h4, h5, hlt]
    rw [hstep, ih (rc + 1) (calls + 1) (sleeps ++ [2 * (rc + 1)]) (by omega)]
    have hfun : (fun i => 2 * (rc + 1 + i + 1))
        = ((fun i => 2 * (rc + i + 1)) ∘ Nat.succ) := by
      funext i
      simp only [Function.comp_apply]
      omega
    have harr : calls + 1 + d = calls + (d + 1) := by omega
    rw [List.range_succ_eq_map, List.map_cons, List.map_map, ← hfun, harr]
    simp [List.append_assoc]

/-- Claim C4: with every generation attempt empty, a context of asynchronous
kind (image-create, gacha) or one absorbed into an open coalescing window is
never retried (exactly one generation call, no backoff sleeps, and no error
reply); every other context is retried `maxRetry` (configuration
`empty_reply_retry_count`, default 2) additional times with backoff
`2 * attempt` seconds (2s, 4s, …), after which the user-visible apology error
stating the number of attempts made (`maxRetry + 1`) is sent. -/
theorem c4_empty_reply_retry (maxRetry : Nat) (gen : Nat → Reply) (e : HandleEnv)
    (hgen : ∀ k, (gen k).content = "") :
    (asyncOrAbsorbed e = true →
      (handleRetry maxRetry gen e).1.genCalls = 1 ∧
      (handleRetry maxRetry gen e).1.sleeps = [] ∧
      (handleRetry maxRetry gen e).2 = HandleOut.noOutput) ∧
    (asyncOrAbsorbed e = false →
      (handleRetry maxRetry gen e).1.genCalls = maxRetry + 1 ∧
      (handleRetry maxRetry gen e).1.sleeps
        = (List.range maxRetry).map (fun i => 2 * (i + 1)) ∧
      (handleRetry maxRetry gen e).2 = HandleOut.sendError
        ("抱歉,我尝试了 " ++ toString (maxRetry + 1) ++
          " 次但仍无法生成回复,请稍后再试")) := by
  constructor
  · intro habs
    obtain ⟨ct, b1, b2⟩ := e
    cases ct <;> cases b1 <;> cases b2 <;>
      simp_all [asyncOrAbsorbed, handleRetry, retryAux, handleAfterLoop, hgen]
  · intro habs
    obtain ⟨hc1, hc2, hc3, hc4, hc5⟩ := (asyncOrAbsorbed_false_iff e).mp habs
    have key := retryAux_exhaust gen e maxRetry hgen hc1 hc2 hc3 hc4 hc5
      maxRetry 0 0 [] (by omega)
    refine ⟨?_, ?_, ?_⟩
    · show (retryAux gen e maxRetry (maxRetry + 1) 0 0 []).genCalls = maxRetry + 1
      rw [key]
      show 0 + maxRetry + 1 = maxRetry + 1
      omega
    · show (retryAux gen e maxRetry (maxRetry + 1) 0 0 []).sleeps
        = (List.range maxRetry).map (fun i => 2 * (i + 1))
      rw [key]
      show [] ++ (List.range maxRetry).map (fun i => 2 * (0 + i + 1))
        = (List.range maxRetry).map (fun i => 2 * (i + 1))
      simp
    · show handleAfterLoop e (retryAux gen e maxRetry (maxRetry + 1) 0 0 [])
        = HandleOut.sendError _
      rw [key]
      simp [handleAfterLoop, hgen, hc1, hc2, hc3, hc4, hc5]

/-- Concrete instantiation of the C4 theorem: default retry budget 2; an
absorbed TEXT context makes one call with no sleeps, a VOICE context retries
with backoff 2s then 4s and reports 3 attempts. -/
theorem c4_empty_reply_retry_witness :
    (handleRetry 2 (fun _ => {}) ⟨ContextType.TEXT, false, true⟩).1.genCalls = 1 ∧
    (handleRetry 2 (fun _ => {}) ⟨ContextType.VOICE, false, false⟩).1.sleeps = [2, 4] ∧
    (handleRetry 2 (fun _ => {}) ⟨ContextType.VOICE, false, false⟩).2
      = HandleOut.sendError "抱歉,我尝试了 3 次但仍无法生成回复,请稍后再试" := by
  refine ⟨((c4_empty_reply_retry 2 (fun _ => {}) ⟨ContextType.TEXT, false, true⟩
      (fun _ => rfl)).1 (by decide)).1, ?_, ?_⟩
  · have h := ((c4_empty_reply_retry 2 (fun _ => {}) ⟨ContextType.VOICE, false, false⟩
      (fun _ => rfl)).2 (by decide)).2.1
    rw [h]
    decide
  · have h := ((c4_empty_reply_retry 2 (fun _ => {}) ⟨ContextType.VOICE, false, false⟩
      (fun _ => rfl)).2 (by decide)).2.2
    rw [h]
    rfl

/-- The sweep keeps every entry at most 300 seconds old. -/
theorem dlookup_cleanup_keep (s : DedupState) (id t0 now : Nat)
    (h : dlookup s id = some t0) (hle : now ≤ t0 + 300) :
    dlookup (cleanup_expired_cache now s) id = some t0 := by
  induction s with
  | nil => cases h
  | cons e rest ih =>
    obtain ⟨i, t⟩ := e
    rw [cleanup_expired_cache, List.filter_cons]
    by_cases hi : i = id
    · subst hi
      simp only [dlookup, if_pos rfl] at h
      have ht : t = t0 := Option.some.inj h
      subst ht
      rw [if_pos (show (!(decide ((i, t).2 + 300 < now))) = true by simp; omega)]
      simp [dlookup]
    · simp only [dlookup, if_neg hi] at h
      split
      · simp only [dlookup, if_neg hi]
        exact ih h
      · exact ih h

/-- One pass of the dedup fragment never disturbs an entry that is at most
300 seconds old. -/
theorem dlookup_dedupStep_preserve (s : DedupState) (id t0 now : Nat)
    (mid : Option Nat) (h : dlookup s id = some t0) (hle : now ≤ t0 + 300) :
    dlookup (dedupStep s mid now).state id = some t0 := by
  cases mid with
  | none => exact h
  | some j =>
    by_cases hj : (dlookup s j).isSome
    · simp only [dedupStep, if_pos hj]
      exact h
    · have hjid : j ≠ id := by
        intro hh
        subst hh
        rw [h] at hj
        simp at hj
      have hcons : dlookup ((j, now) :: s) id = some t0 := by
        simp only [dlookup, if_neg hjid]
        exact h
      simp only [dedupStep, if_neg hj]
      split
      · exact dlookup_cleanup_keep _ id t0 now hcons hle
      · exact hcons

/-- A trace of arrivals whose times stay within the entry's expiry horizon
never disturbs that entry. -/
theorem dlookup_runDedup_preserve (id t0 : Nat) :
    ∀ (tr : List (Option Nat × Nat)) (s : DedupState),
      dlookup s id = some t0 → (∀ ev ∈ tr, ev.2 ≤ t0 + 300) →
      dlookup (runDedup s tr) id = some t0 := by
  intro tr
  induction tr with
  | nil =>
    intro s h _
    exact h
  | cons ev rest ih =>
    intro s h htr
    obtain ⟨mid, t⟩ := ev
    exact ih _
      (dlookup_dedupStep_preserve s id t0 t mid h (htr (mid, t) (by simp)))
      (fun ev2 hev => htr ev2 (by simp [hev]))

/-- A successful admission records the id with the admission time. -/
theorem dedupStep_records (s : DedupState) (id t0 : Nat)
    (hacc : (dedupStep s (some id) t0).accepted = true) :
    dlookup (dedupStep s (some id) t0).state id = some t0 := by
  by_cases hj : (dlookup s id).isSome
  · simp only [dedupStep, if_pos hj] at hacc
    simp at hacc
  · have hcons : dlookup ((id, t0) :: s) id = some t0 := by
      simp [dlookup]
    simp only [dedupStep, if_neg hj]
    split
    · exact dlookup_cleanup_keep _ id t0 t0 hcons (by omega)
    · exact hcons

/-- A present identifier is rejected, whatever the arrival time. -/
theorem dedupStep_rejects (s : DedupState) (id v t' : Nat)
    (h : dlookup s id = some v) :
    (dedupStep s (some id) t').accepted = false := by
  have hs : (dlookup s id).isSome = true := by
    rw [h]
    rfl
  simp only [dedupStep, if_pos hs]

/-- Claim C5: once a message identifier is admitted, every later arrival of
the same identifier within 300 seconds — regardless of interleaved arrivals
that also stay within that horizon — is rejected as a duplicate; and a
message lacking an identifier is always admitted. -/
theorem c5_dedup_reject_within_expiry (s0 : DedupState) (id t0 t' : Nat)
    (tr : List (Option Nat × Nat))
    (hacc : (dedupStep s0 (some id) t0).accepted = true)
    (htr : ∀ ev ∈ tr, ev.2 ≤ t0 + 300) (_ht' : t' ≤ t0 + 300) :
    (dedupStep (runDedup (dedupStep s0 (some id) t0).state tr)
        (some id) t').accepted = false ∧
    ∀ (s : DedupState) (now : Nat), (dedupStep s none now).accepted = true := by
  constructor
  · have h1 := dedupStep_records s0 id t0 hacc
    have h2 := dlookup_runDedup_preserve id t0 tr _ h1 htr
    exact dedupStep_rejects _ id t0 t' h2
  · intro s now
    rfl

/-- Concrete instantiation of the C5 theorem: id 1 admitted at time 0, an
unrelated arrival at time 10, the duplicate at time 100 rejected; an
id-less message admitted. -/
theorem c5_dedup_reject_within_expiry_witness :
    (dedupStep (runDedup (dedupStep [] (some 1) 0).state [(some 2, 10)])
        (some 1) 100).accepted = false ∧
    (dedupStep [(5, 0)] none 50).accepted = true :=
  ⟨(c5_dedup_reject_within_expiry [] 1 0 100 [(some 2, 10)] (by decide)
      (by decide) (by decide)).1,
   (c5_dedup_reject_within_expiry [] 1 0 100 [(some 2, 10)] (by decide)
      (by decide) (by decide)).2 [(5, 0)] 50⟩

/-- A trace of 101 successful admissions of distinct ids: id 1 at time 0, ids
2-100 at time 301, id 101 at time 302. -/
def c9trace : List (Nat × Nat) :=
  (1, 0) :: ((List.range 99).map (fun i => (i + 2, 301)) ++ [(101, 302)])

/-- Claim C9 fails on the code: on the trace `c9trace` every arrival is a
successful admission of a fresh identifier, yet the sweep fires on the 101st
admission (index 100) — not a multiple of 100 — because admission 100's sweep
removed the one expired entry (id 1, age 301 > 300), leaving 99 entries, so
the very next insertion brings the dict size back to 100.  The trigger is the
dict size after insertion, not the admission count. -/
theorem c9_sweep_trigger_counterexample :
    allFresh [] c9trace = true ∧
    (sweptFlags [] (c9trace.map (fun p => (some p.1, p.2)))).get? 100
      = some true ∧
    ¬(100 + 1) % 100 = 0 := by
  refine ⟨by decide, by decide, by decide⟩

/-- A no-sweep, all-fresh run grows the cache by exactly one entry per
arrival and never passes a size that is a multiple of 100. -/
theorem noSweep_sizes :
    ∀ (tr : List (Nat × Nat)) (s : DedupState),
      allFresh s tr = true → noSweep s tr = true →
      ∀ j < tr.length, ¬(s.length + j + 1) % 100 = 0 := by
  intro tr
  induction tr with
  | nil =>
    intro s _ _ j hj
    cases hj
  | cons ev rest ih =>
    intro s hf hn j hj
    obtain ⟨id, t⟩ := ev
    rw [allFresh, Bool.and_eq_true] at hf
    rw [noSweep, Bool.and_eq_true] at hn
    have hid : dlookup s id = none := Option.isNone_iff_eq_none.mp hf.1
    have hid' : ¬(dlookup s id).isSome = true := by
      rw [hid]
      simp
    have hnotmul : ¬((id, t) :: s).length % 100 = 0 := by
      intro hmul
      have : (dedupStep s (some id) t).swept = true := by
        simp only [dedupStep, if_neg hid', if_pos hmul]
      rw [this] at hn
      simp at hn
    have hstate : (dedupStep s (some id) t).state = (id, t) :: s := by
      simp only [dedupStep, if_neg hid', if_neg hnotmul]
    cases j with
    | zero =>
      simpa using hnotmul
    | succ j =>
      have := ih ((id, t) :: s) (by rw [← hstate]; exact hf.2)
        (by rw [← hstate]; exact hn.2) j (by simpa using hj)
      simpa [Nat.add_assoc, Nat.add_comm, Nat.add_left_comm] using this

/-- Any window of 100 consecutive successful insertions contains a sweep. -/
theorem sweep_within_100 (s : DedupState) (tr : List (Nat × Nat))
    (hf : allFresh s tr = true) (hlen : 100 ≤ tr.length) :
    ¬noSweep s tr = true := by
  intro hn
  have hkey := noSweep_sizes tr s hf hn (99 - s.length % 100) (by omega)
  omega

/-- A sweep at time `now` removes every entry for `id` when all of them are
older than 300 seconds. -/
theorem dlookup_cleanup_none (now id : Nat) :
    ∀ l : DedupState, (∀ p ∈ l, p.1 = id → p.2 + 300 < now) →
      dlookup (cleanup_expired_cache now l) id = none := by
  intro l
  induction l with
  | nil =>
    intro _
    rfl
  | cons e rest ih =>
    intro hall
    obtain ⟨i, t⟩ := e
    rw [cleanup_expired_cache, List.filter_cons]
    split
    · rename_i hkeep
      have hi : i ≠ id := by
        intro hh
        have hex := hall (i, t) (by simp) hh
        simp at hkeep
        omega
      simp only [dlookup, if_neg hi]
      exact ih (fun p hp hpid => hall p (by simp [hp]) hpid)
    · exact ih (fun p hp hpid => hall p (by simp [hp]) hpid)

/-- Claim C9 (amended): the sweep fires exactly when the cache size after an
insertion is a multiple of 100 (a size-based trigger, not an admission
counter); consequently no 100 consecutive successful insertions are all
sweep-free, and a sweep fired by some other arrival at time `now` removes
every entry older than 300 seconds — so an expired entry is gone within 100
further insertions. -/
theorem c9_sweep_size_based_amended :
    (∀ (s : DedupState) (id now : Nat), dlookup s id = none →
      (dedupStep s (some id) now).swept
        = decide ((s.length + 1) % 100 = 0)) ∧
    (∀ (s : DedupState) (tr : List (Nat × Nat)),
      allFresh s tr = true → 100 ≤ tr.length → ¬noSweep s tr = true) ∧
    (∀ (s : DedupState) (id now : Nat) (mid : Option Nat),
      mid ≠ some id →
      (∀ p ∈ s, p.1 = id → p.2 + 300 < now) →
      (dedupStep s mid now).swept = true →
      dlookup (dedupStep s mid now).state id = none) := by
  refine ⟨?_, sweep_within_100, ?_⟩
  · intro s id now hid
    have hid' : ¬(dlookup s id).isSome = true := by
      rw [hid]
      simp
    by_cases hmul : ((id, now) :: s).length % 100 = 0
    · have hmul' : (s.length + 1) % 100 = 0 := by simpa using hmul
      simp only [dedupStep, if_neg hid', if_pos hmul]
      simp [hmul']
    · have hmul' : ¬(s.length + 1) % 100 = 0 := by simpa using hmul
      simp only [dedupStep, if_neg hid', if_neg hmul]
      simp [hmul']
  · intro s id now mid hmid hall hswept
    cases mid with
    | none =>
      simp [dedupStep] at hswept
    | some j =>
      have hjid : j ≠ id := by
        intro hh
        exact hmid (by rw [hh])
      by_cases hj : (dlookup s j).isSome
      · simp only [dedupStep, if_pos hj] at hswept
        simp at hswept
      · by_cases hmul : ((j, now) :: s).length % 100 = 0
        · simp only [dedupStep, if_neg hj, if_pos hmul]
          show dlookup (cleanup_expired_cache now ((j, now) :: s)) id = none
          apply dlookup_cleanup_none
          intro p hp hpid
          rcases List.mem_cons.mp hp with h | h
          · rw [h] at hpid
            exact absurd hpid hjid
          · exact hall p h hpid
        · simp only [dedupStep, if_neg hj, if_neg hmul] at hswept
          simp at hswept

/-- Concrete instantiation of the amended C9 theorem: a fresh insertion into a
99-entry cache sweeps; the 100-insertion window of `c9trace` contains a sweep;
a sweep removes the expired entry id 1. -/
theorem c9_sweep_size_based_amended_witness :
    (dedupStep ((List.range 99).map (fun i => (i + 2, 301))) (some 1) 302).swept
      = true ∧
    ¬noSweep [] c9trace = true ∧
    dlookup (dedupStep ((1, 0) :: (List.range 98).map (fun i => (i + 2, 301)))
        (some 101) 302).state 1 = none := by
  refine ⟨?_, ?_, ?_⟩
  · have h := c9_sweep_size_based_amended.1
      ((List.range 99).map (fun i => (i + 2, 301))) 1 302 (by decide)
    rw [h]
    decide
  · exact c9_sweep_size_based_amended.2.1 [] c9trace (by decide) (by decide)
  · have h := c9_sweep_size_based_amended.2.2
      ((1, 0) :: (List.range 98).map (fun i => (i + 2, 301))) 1 302 (some 101)
      (by decide) (by decide) (by decide)
    exact h

end CC
